import Mathlib

/-!
Shallow embedding of the core of the EndGame2 chess engine (src/main.rs)
and verification of four claims about it: legality filtering in the move
generator, the capture bit on generated half-moves, the in-check
castling-rights clearing, and the static evaluator.

Conventions of the embedding:
* Rust `u8`/`u16` square indexes and clocks become `Nat`; signed offset
  arithmetic (`index as i8 + offset`) becomes `Int` arithmetic.
* Rust `%` on signed integers is truncated remainder, embedded as `Int.tmod`.
* `u64` wrapping addition is explicit `% 2 ^ 64` on `Nat`.
* Rust `HashSet<u8>` piece-index sets become `List Nat`; `insert` adds the
  element when absent, `remove` filters it out.  Iteration order of a
  `HashSet` is unspecified in Rust; the embedding fixes the list order.
* Rust `HashMap<u64, u8>` (the repetition map) becomes `Nat → Option Nat`.
* Board accesses that would panic in Rust (index out of bounds, `unwrap`
  of an empty square) are only reachable from malformed positions; they
  are given total default behaviour, noted at each spot.  `execute_halfmove`
  returns `Option Position`, `none` standing for the panicking paths.
-/

namespace EndGame2

/-- Color enum (src/main.rs `enum Color`). -/
inductive Color
  | Black
  | White
deriving DecidableEq, Repr

/-- Piece enum, each variant carrying its color (src/main.rs `enum Piece`). -/
inductive Piece
  | Pawn (c : Color)
  | Knight (c : Color)
  | Bishop (c : Color)
  | Rook (c : Color)
  | Queen (c : Color)
  | King (c : Color)
deriving DecidableEq, Repr

/-- Half-move flag enum (src/main.rs `enum HalfmoveFlag`). -/
inductive HalfmoveFlag
  | KnightPromotion
  | BishopPromotion
  | RookPromotion
  | QueenPromotion
  | Castle
  | EnPassant
  | DoublePawnMove
deriving DecidableEq, Repr

/-- A half-move (src/main.rs `struct HalfMove`); `from` is a Lean keyword and
`to` a Mathlib token, so the fields carry a trailing underscore. -/
structure HalfMove where
  from_ : Nat
  to_ : Nat
  flag : Option HalfmoveFlag
  is_capture : Bool
deriving DecidableEq, Repr

/-- Per-color castling rights (src/main.rs `struct ColorCastlingRights`). -/
structure ColorCastlingRights where
  kingside : Bool
  queenside : Bool
deriving DecidableEq, Repr

/-- Piece-index sets plus cached king squares (src/main.rs `struct PieceSet`).
The Rust `HashSet<u8>` fields are embedded as lists. -/
structure PieceSet where
  all : List Nat
  white : List Nat
  black : List Nat
  white_king : Nat
  black_king : Nat
deriving DecidableEq, Repr

/-- Castling rights of both sides (src/main.rs `struct CastlingRights`). -/
structure CastlingRights where
  black : ColorCastlingRights
  white : ColorCastlingRights
deriving DecidableEq, Repr

/-- A position (src/main.rs `struct Position`).  The length-64 board array is
embedded as a list of optional pieces. -/
structure Position where
  board : List (Option Piece)
  piece_set : PieceSet
  move_next : Color
  castling_rights : CastlingRights
  en_passant_target : Option Nat
  halfmove_clock : Nat
  fullmove_number : Nat
deriving DecidableEq, Repr

/-- `Color::opposite` (src/main.rs). -/
def Color.opposite : Color → Color
  | Color.Black => Color.White
  | Color.White => Color.Black

/-- `Piece::get_color` (src/main.rs). -/
def Piece.get_color : Piece → Color
  | Piece.Pawn c => c
  | Piece.Knight c => c
  | Piece.Bishop c => c
  | Piece.Rook c => c
  | Piece.Queen c => c
  | Piece.King c => c

/-- `Piece::get_cp_val` (src/main.rs): material value in centipawns. -/
def Piece.get_cp_val : Piece → Nat
  | Piece.Pawn _ => 100
  | Piece.Knight _ => 320
  | Piece.Bishop _ => 290
  | Piece.Rook _ => 490
  | Piece.Queen _ => 900
  | Piece.King _ => 60000

/-- Rust truncated remainder on signed integers (`%` on `i8`). -/
def rmod (a b : Int) : Int := Int.tmod a b

/-- Board access at a signed index.  Rust would panic on an out-of-range
index; such accesses are unreachable on well-formed boards, and the
embedding returns `none` there. -/
def bget (b : List (Option Piece)) (i : Int) : Option Piece :=
  if i < 0 then none else b.getD i.toNat none

/-- Board access at an unsigned index (same out-of-range note as `bget`). -/
def bgetN (b : List (Option Piece)) (i : Nat) : Option Piece :=
  b.getD i none

/-- `PieceSet::remove_index` (src/main.rs). -/
def PieceSet.remove_index (s : PieceSet) (index : Nat) (color : Color) : PieceSet :=
  let s := { s with all := s.all.filter (fun x => x != index) }
  if color = Color.Black then
    { s with black := s.black.filter (fun x => x != index) }
  else
    { s with white := s.white.filter (fun x => x != index) }

/-- `PieceSet::add_index` (src/main.rs). -/
def PieceSet.add_index (s : PieceSet) (index : Nat) (color : Color) : PieceSet :=
  let s := { s with all := s.all.insert index }
  if color = Color.Black then
    { s with black := s.black.insert index }
  else
    { s with white := s.white.insert index }

/-- `PieceSet::add_index_or_color_swap` (src/main.rs). -/
def PieceSet.add_index_or_color_swap (s : PieceSet) (index : Nat) (color : Color) : PieceSet :=
  let s := { s with all := s.all.insert index }
  if color = Color.Black then
    { s with black := s.black.insert index, white := s.white.filter (fun x => x != index) }
  else
    { s with white := s.white.insert index, black := s.black.filter (fun x => x != index) }

/-- Wrapping addition on `u64`, as explicit `Nat` arithmetic mod `2 ^ 64`. -/
def wadd (a b : Nat) : Nat := (a + b) % 2 ^ 64


/-- The fixed table of 781 pseudo-random 64-bit values used by gen_hash
(src/main.rs, psrn_table). -/
def psrn_table : List Nat :=
  [
   6050961064690644123, 15385182941806993281, 1474049585344358660, 6851573923483025534, 
   13899087919403525125, 8758650992845187116, 1831239503027593786, 13701660087018851169, 
   18335348291191493899, 4402234053541100678, 14757096522167036102, 13009140431848805653, 
   1292898825854068034, 4884307846020727494, 13857947210706460393, 1626896879833203751, 
   6038445616195308722, 6720134536466369422, 4497292822882533224, 12369361321546040904, 
   14712685727521284085, 1608341193440387084, 4094586736089739280, 2072304564850959527, 
   4091162237664628960, 15417717071469061328, 158710210446366970, 10118476861800698006, 
   16261210225467785938, 3509118041234889229, 6369150832245265647, 16079384263440389010, 
   11115231651891558388, 4646006308786422360, 18110725773482173731, 5657782342379456300, 
   11143381484293096337, 7487773842973491479, 6751517840915511657, 14929942954797253082, 
   1901957234508141725, 8921907195207315801, 17463714160121970869, 12245751322195944246, 
   10654386101703818407, 3931494334593277793, 17115885933089799525, 8502883217534375488, 
   745914388038295655, 1034741315093060365, 9433678509952610578, 1098536606267845662, 
   13213316387606432785, 3350954517876542623, 11207000871705408100, 10414442641064136232, 
   16749912713695375096, 16740481193746264268, 15559897978749864387, 10170635327641382168, 
   13139853202089369670, 14022649397309221013, 11247166396668734960, 14500993388554649383, 
   10234231535682188861, 16082651711303738385, 13240344989764749555, 15761415548747030129, 
   13200626097523845685, 10158384463413159211, 12082793007871671521, 7053088165737182306, 
   17910572772996987755, 634551525556320577, 8715072720248632882, 16645249778365519939, 
   17071269256303802149, 13000434989816980991, 3266080034350421129, 10387188012931609076, 
   12909971265520579520, 2232707469466001278, 12247075673661908260, 2073603714481317363, 
   901131989421222986, 17687777256174267121, 10628670673870316880, 10335258412280339222, 
   13252625444758210862, 13244768822050161111, 11902193789785886843, 4557300638221084616, 
   15723110200581411395, 2002686390970716135, 3679706203300853541, 8465679685848505392, 
   15629865532713611859, 2252635975746926934, 13176514338201280970, 18323437376244292447, 
   3052078822704129486, 14668753997257336776, 7484590864270466728, 9116309183190979995, 
   17775487882875822414, 773122596006458714, 17641850471318846102, 15107524460097819202, 
   7418208085589646254, 8561007928848469504, 15315171626020440806, 5431303807153869368, 
   18338711474901845704, 15830389477933775901, 943683194046629764, 12756255220308303970, 
   15818202731076003553, 17099604802677736889, 4050058657376309133, 17788592446092713641, 
   12125532480504028469, 7346811925904984991, 16743490842944433249, 12915895388335722275, 
   13798990182043546430, 10651826920167390121, 17969822964227303393, 4544407742359086458, 
   10681790818208387649, 14722634122293894088, 7546947474351786735, 3105849400590956960, 
   8113431633459910815, 16846295435437074212, 2884719721752435755, 11434748994118687031, 
   8592015634217955360, 12804867188244779916, 11198362185301661234, 11893160967421070986, 
   5713328646749870157, 3376500401699912934, 12396827523520345466, 16163415384865807273, 
   10631825877706701086, 18362438055956926458, 7091289048407828922, 2601597000512142188, 
   5934351981512336591, 18009871113071078878, 5067636467652884776, 13664982911664380293, 
   11250428350774470275, 15195462104258779713, 3761708893439855811, 5714505373559617613, 
   16070201332416855208, 7836116975836822007, 6610470649036680618, 18340614937879377979, 
   16747532071404513809, 13866875191998180171, 2046326353399532111, 14152787502496138315, 
   17862055635526226878, 3935530809429155555, 14407604056361705041, 17819032531253250211, 
   7012195161138792524, 843324294862535766, 11284107948253343080, 1749165026438999140, 
   17365438740212629834, 529057808325496683, 11364771066596107837, 11856258599114527383, 
   4316973369925240629, 5243288441161619140, 894022035255586177, 16853695020805006493, 
   10797222682704016790, 5858313985552783408, 10237723180844500384, 15304820458373535844, 
   17850530461622689681, 14894060435840074976, 14427026045903430902, 104617213228060690, 
   7640074872228573677, 7573980051921992697, 10305090662346373726, 18307325185753646832, 
   3253083594076551494, 12756449958142110556, 7986408859512743752, 4976782687715554697, 
   6758736852197655040, 1033181489679567150, 14155585553909016816, 4249394446353065408, 
   17942940693848032142, 3535312454936521939, 13154155077310235819, 6615990194370558678, 
   11838970440518365616, 17082754182448501336, 8146609427596499162, 2225872567139137754, 
   5812928537890751298, 7002225902229134612, 15122223306994340390, 8811643324484140341, 
   4240177335615464473, 1263622195699005784, 4937788903724975379, 8710761994859176931, 
   11579355844267439659, 14762877258348145194, 9340761068251229970, 2965544404013391364, 
   7474830457601152485, 17004451485192980313, 836167104639626113, 16192472709886055895, 
   5567772969564176462, 14711296339676478873, 9064257581222141987, 289450938860923833, 
   9437036928624368577, 17319187955177794104, 14705260853599714953, 2938102596797146997, 
   13053614869271975353, 7811262463056009475, 10471781887007966218, 6318402700082491738, 
   12859742873462550346, 13581778329009260002, 2191427603160772933, 2912587536796309376, 
   12190681911391377435, 2121662344245551616, 11940356828758808627, 8579633679480549070, 
   17748750722896289810, 9922686718031707817, 9890729722693482208, 1738413465528204104, 
   12106772477101032553, 10343326210733605168, 10521792142915609879, 9133206837523597081, 
   14228057140258989546, 16629749403701501368, 8057453397540486664, 14771587299335891728, 
   12542639368862350092, 17033018684229091182, 14299417385609581513, 299895395448337771, 
   18261141907208659512, 58435901761234140, 1029815525973352126, 16667980257426781041, 
   10364293774554972990, 14118057326965178932, 13217797211731137055, 7331073934442150546, 
   13516155712980895236, 3849197493611392794, 6311397283325561707, 5734118818395547438, 
   4867368830777807010, 9287369375107932908, 2926380459256882904, 18359136274642055492, 
   6157115134594143556, 15083371154181254693, 14506803485078401988, 10100223926074614734, 
   17009608990384185248, 13503764453345526380, 8209605655417046357, 10908528342113814552, 
   5270672473694595866, 5227971298844608744, 2079841133548231047, 9716184702400726114, 
   16198418592916683571, 3228342983974782177, 14635980218870688079, 13550371517618278327, 
   12669594339150634112, 11591207933534184271, 9564796019405425199, 2501218974170272794, 
   1327476418968706882, 3168866119130897463, 8425176289155694011, 4253645703623642439, 
   4012572788319560961, 14748287885898588380, 15913389759861721802, 9004133984019784852, 
   5915021421986852130, 5629928874286919288, 4221326977905064881, 2510275727066081252, 
   8126081520560038169, 5696364608254310546, 10956502371156347231, 3256132070556573989, 
   16347019016654603140, 5002654120378261107, 2093733417751210425, 18015440295385245672, 
   5699852561200492883, 10706954589778002309, 3296275905849577026, 2965778812108887194, 
   4418827907814509781, 11190035921018846823, 4212926398119039131, 2172920485357587036, 
   5417674759529146084, 12559822789700806847, 6420030248204950146, 11556884813285663168, 
   17078599768159079822, 9457541948057297374, 5294206209553005609, 10417300360929566980, 
   16196327365681227323, 6395469077661940900, 4708532786143680622, 10654194123371921563, 
   9651553495607851035, 15014301726845382732, 12035066491922951630, 12561246240444678516, 
   11978111492276933879, 990166153752483250, 17569815533005884963, 10194498563663234464, 
   10928768676372136124, 14796581717184468331, 9723175147088108129, 5810018124754208806, 
   15176267457803663891, 10020041885928112913, 18310674336842914861, 6397752648784716519, 
   17225786258546997877, 1789197968025353863, 10403293684791961098, 18144238680550519661, 
   4576865157808586296, 12574838769490753335, 7897053966609216911, 17669716723430272262, 
   16887123826806941351, 14567216391692586257, 14148853342514078053, 15543561537766863720, 
   13179732114149938262, 15548110259070525182, 8241184539042406975, 12886167617719501434, 
   2668442484504456534, 5528737578750256550, 8045724552511222249, 14233549524182091382, 
   14454773653496152899, 4803382709611342105, 14104305995325012156, 9233416359162608765, 
   10896765243687396087, 3888622613535254020, 5204363573751428905, 15550077342098247025, 
   14057215280926617785, 6429067651734432800, 12145175219210066021, 3871151583257216929, 
   14382153126479391325, 3503136348951471139, 17074632318198699960, 18277337232990677676, 
   2438793295253393259, 14188276604425453834, 17190081648445444068, 14901372647638775549, 
   10575384267303610410, 12463714381430437920, 5296503864634704402, 1085506994095541018, 
   17711931477255281454, 10029194223911757044, 10755199144959386844, 8671868823094321814, 
   5983006676130798566, 10792592475280434339, 722608211743985546, 14482132779275271146, 
   9415512828898525574, 16956058083295549808, 9209857238564496465, 12683605268868586743, 
   2955776406012433258, 16029235202218082952, 6579160785242750161, 504295306752149147, 
   9341624862273318372, 15375265198034115277, 6994898638369110070, 309797721354564726, 
   12429410516424851772, 5192024237253378865, 3912399787570959755, 12541234326966170226, 
   18441632327004496392, 7346203468976882923, 17593945557702212252, 15367442556011108555, 
   18217099153608305021, 10157165767144106959, 14018728927678812016, 18099686645005791370, 
   15136980239802015388, 7047521305623726125, 7575245649510417331, 14278619717007843644, 
   556011385191822492, 11381450268477688895, 14606319637689027024, 7080222843433955438, 
   5535489633773271511, 12090789406220893065, 14588818283718185151, 15370484225886308308, 
   12506301389557425466, 14865276370451418685, 8307888451349003948, 2861458479835086804, 
   5979069397180909905, 3140261739536988441, 5512756738929686408, 62084764907834261, 
   15807114778163996394, 2514213451484910157, 12101977943332277088, 5754338443349951926, 
   11202526598411612289, 1941284846376634320, 13676463015082195127, 13512152708144120784, 
   15967285827171943566, 1414500093148047241, 12815445217859919773, 11408657165942473469, 
   13896534001351748553, 12170732773640396882, 13528711356234590625, 13396280905236298091, 
   526652414431385131, 18204997071569618430, 4672075988794117180, 10712277614075303886, 
   10462100441247111006, 15579071806953301277, 15286269530449908638, 5479544935618236438, 
   7078561675539836269, 14897271087535510231, 6663607476483075550, 10975108262709842260, 
   5164218779845057244, 3026027211361889997, 10372550805396296371, 5511181984466209111, 
   4615344310383006121, 14765022018300614504, 7941633078349736364, 2336972229937914156, 
   15572100879945226778, 4252302396980455049, 12550177359955319593, 1459460872050639652, 
   17262569865062661057, 1539903875688234572, 17611947439799518453, 2703027075660991994, 
   11637679138689401581, 3064316072640710608, 1680909683069808723, 3607511184654591057, 
   4108173343691407894, 17379562958700858326, 302916588307766784, 3080575744190946064, 
   14618492782227969892, 7410866293301888883, 15107711256805849837, 4154183358968633778, 
   228080548283573131, 4117428293408729535, 20393270934047095, 6924832010164006882, 
   9829266407182768870, 1479756068945379597, 13132187458871599966, 8408723953761582692, 
   7925131402231319271, 4163854595303398243, 11230101227039602264, 16993193842701891622, 
   15444679853316663011, 3781919890769373844, 11182705188793031493, 5892311539960805112, 
   17158673965144059034, 16226450487359544767, 3857937074244810267, 10290970525402511515, 
   4090612527962514610, 15705494108227347854, 11713886306567047904, 11839618259637189525, 
   8015231900599896429, 14318494365807990907, 17066719705795494095, 1191101778471427856, 
   18366858155298147659, 9909682530008047655, 18103868884984506862, 18272414527621650028, 
   8396690449634257845, 541665888372703491, 8880466152303936336, 7116327037981094726, 
   14787688634394995663, 10394250631058185299, 10941901494326388747, 2555388952390999332, 
   3758236094703160891, 16576737194033338957, 14366906953111661451, 1903270876738280544, 
   10324021488998625612, 18353689077818956100, 8991522840099717154, 2421074737169331519, 
   9169793787044604812, 18260962835765091438, 4114111187649682384, 12816926656461667356, 
   17481819214090174809, 10131753959629909294, 12546401621311663568, 7179244263615447903, 
   3726159482382699804, 4915138607684722647, 17168907241619308384, 12339912791745187348, 
   1707583925986994553, 14011204057319936567, 10794690787627844528, 10695852063656574836, 
   3197783774491593781, 7298933884713059525, 6328633030694775205, 10766434409434719553, 
   10091956128572215514, 3455431069320366557, 392899140943852740, 4786988958218928946, 
   17290118779266618583, 9569754117035606215, 9608745232397807979, 5317990318280560256, 
   1174821456301900773, 9629429049860584332, 16050528676160605532, 8553649108826978033, 
   9401175273538018431, 16154633128515230798, 1905181735190354887, 14357904420278363879, 
   8896250678213174483, 4757364172887264470, 534375847936343030, 4168770809732413905, 
   5319475466728698669, 16027717470825227410, 16290862895133357951, 7585575570172258495, 
   7376450908955157397, 105693702558868570, 5867124974882586974, 10358598132073172602, 
   12687742061092614126, 10033659482067303133, 6046794178657639025, 5682077375508511604, 
   16085410403491061574, 2221968166217602761, 14054121017115688694, 9999403329710406488, 
   14173309310608438308, 2213865887714781468, 10095989436830741386, 6831589881469508820, 
   2210779362904169838, 17870372339043947522, 926838333319636069, 14155028843993162273, 
   3789607254882896617, 11944486143104258955, 7877247516668015598, 13403475833651114537, 
   6804136318190869572, 15941814127752619716, 2870163589488692723, 3380428415866679688, 
   17869614886487731048, 12478570456242254441, 15953546942867752514, 14008141154075371973, 
   3261688501716887849, 8115949271760655919, 4123026970301930621, 6389926672597484019, 
   1434651534731442627, 17520271334962967152, 16176207172243961455, 12191313098201911592, 
   11829326229021738049, 3441526450024664451, 14672768068246754822, 6091054180467864913, 
   17310674220118407423, 10133704405879849808, 5245870133028354084, 5699111173180951384, 
   424903395538216595, 7043252863064238904, 15030900898582281980, 6047080229948242541, 
   6673848437141978636, 7619119509346272531, 1176862265596481243, 1432562585694455670, 
   14207256064924225720, 17177014215747555751, 12404913789792397349, 17142808236991882077, 
   12206497933940300112, 17239638110422550477, 9541260587948853653, 5382239951718353022, 
   12461479961770469628, 5378179547293175807, 17788513785887631264, 2769065464121114364, 
   6698553467183667369, 12881128031963500700, 15757831429553553394, 13546128785342036562, 
   12785217889406033884, 5788314480727360675, 2793556930718848067, 2569518059303078779, 
   9235865686928466768, 8559980265714462943, 1268367044108754402, 10691882615180890276, 
   15531362923319305157, 3713025523581636531, 17821743846441991997, 4052839474685653212, 
   1964950709534779841, 3077048493964259228, 4680455791302938987, 14635728993302465994, 
   16761081135007356997, 14169913184783073434, 15297891832366291834, 2318207228039675382, 
   8504436602692556662, 8742349526436801363, 6126332799630915405, 5684354393344322870, 
   786183764801356732, 2343749936100637379, 720083360215038549, 5698685623915037082, 
   5915927667934393073, 9653509432946646798, 7079450852067684930, 2873528879681144878, 
   5558725876601302241, 7122421005083450743, 9720837126712108722, 7042772586139178077, 
   9659765980907602557, 617947098950154900, 3427189771032661006, 17611098782518188137, 
   11842008121454083047, 12090422274619625801, 13027146231092701682, 7150380630802500542, 
   76383145629883242, 18080576578711996702, 16356958352804286010, 14114746357020113352, 
   7921345840959732225, 17062772333595287544, 1260272922934697060, 5106096742451363382, 
   16075734719455612351, 10285794434717851630, 13399089060204000538, 8989588679388842206, 
   17101036744433399257, 1870648155382229838, 4497126874072672417, 3938922443378817162, 
   2927351814943280270, 3808821898427060335, 13872502583271862467, 5070605930349356387, 
   11972956721874186286, 8204290494894192656, 7230281892289845417, 18275285539786715214, 
   2404658561333529903, 16200640225189980110, 1810535742598390686, 749579642403451083, 
   9381688544530888032, 2833403535692394632, 4291075055163480910, 13897310516919681668, 
   18124882455222455711, 4399037140000442103, 16790244923650890342, 11248815251785723945, 
   8950265283055727281, 14064316622141232227, 3486167182041002958, 3686193929606109177, 
   2507146866769039965, 17198954785903697242, 17081810208716216052, 3983765481446896246, 
   7931770154753963032, 11893182668119123647, 12793958946298266810, 8401299987260453643, 
   2010613517693662606, 1665411773551417479, 11537634155796626245, 17933021902018037060, 
   15450537488547765217, 5339631745645945879, 12343722746092515604, 1624170935175840137, 
   6367934948056314691, 9093462352226564605, 5970002736843134976, 16103184750985353063, 
   15981753300871893582, 7557999814210827344, 5975213922167227474, 9964613871441776749, 
   9541798040899160189, 9138840133348875391, 1714696712793392765, 4519285853735943465, 
   442643889793963538
  ]

/-- `Position::gen_hash` (src/main.rs): Zobrist-style fingerprint formed by
wrapping-summing table entries for each placed piece, plus small constants
for side-to-move, castling flags and the en-passant file.  The `unwrap` on
`en_passant_target` only runs after the `!= None` test, so it cannot panic. -/
def gen_hash (p : Position) : Nat :=
  let hash := (List.range 64).foldl (fun hash i =>
    match bgetN p.board i with
    | some (Piece.Pawn Color.White) => wadd hash (psrn_table.getD i 0)
    | some (Piece.Pawn Color.Black) => wadd hash (psrn_table.getD (i + 64) 0)
    | some (Piece.Knight Color.White) => wadd hash (psrn_table.getD (i + 64 * 2) 0)
    | some (Piece.Knight Color.Black) => wadd hash (psrn_table.getD (i + 64 * 3) 0)
    | some (Piece.Bishop Color.White) => wadd hash (psrn_table.getD (i + 64 * 4) 0)
    | some (Piece.Bishop Color.Black) => wadd hash (psrn_table.getD (i + 64 * 5) 0)
    | some (Piece.Rook Color.White) => wadd hash (psrn_table.getD (i + 64 * 6) 0)
    | some (Piece.Rook Color.Black) => wadd hash (psrn_table.getD (i + 64 * 7) 0)
    | some (Piece.Queen Color.White) => wadd hash (psrn_table.getD (i + 64 * 8) 0)
    | some (Piece.Queen Color.Black) => wadd hash (psrn_table.getD (i + 64 * 9) 0)
    | some (Piece.King Color.White) => wadd hash (psrn_table.getD (i + 64 * 10) 0)
    | some (Piece.King Color.Black) => wadd hash (psrn_table.getD (i + 64 * 11) 0)
    | none => hash) 0
  let hash := if p.move_next = Color.Black then wadd hash 768 else hash
  let hash := if p.castling_rights.white.kingside then wadd hash 769 else hash
  let hash := if p.castling_rights.white.queenside then wadd hash 770 else hash
  let hash := if p.castling_rights.black.kingside then wadd hash 771 else hash
  let hash := if p.castling_rights.black.queenside then wadd hash 772 else hash
  match p.en_passant_target with
  | some t => wadd hash (773 + t % 8)
  | none => hash

/-- Pawn piece-square table (src/main.rs `get_piece_value`). -/
def pawn_table : List Int :=
  [0, 0, 0, 0, 0, 0, 0, 0, 30, 30, 30, 40, 40, 30, 30, 30, 20, 20, 20, 30, 30, 30, 20, 20, 10,
   10, 15, 25, 25, 15, 10, 10, 5, 5, 5, 20, 20, 5, 5, 5, 5, 0, 0, 5, 5, 0, 0, 5, 5, 5, 5, -10,
   -10, 5, 5, 5, 0, 0, 0, 0, 0, 0, 0, 0]

/-- Knight piece-square table (src/main.rs `get_piece_value`). -/
def knight_table : List Int :=
  [-5, -5, -5, -5, -5, -5, -5, -5, -5, 0, 0, 10, 10, 0, 0, -5, -5, 5, 10, 10, 10, 10, 5, -5,
   -5, 5, 10, 15, 15, 10, 5, -5, -5, 5, 10, 15, 15, 10, 5, -5, -5, 5, 10, 10, 10, 10, 5, -5,
   -5, 0, 0, 5, 5, 0, 0, -5, -5, -10, -5, -5, -5, -5, -10, -5]

/-- Bishop piece-square table (src/main.rs `get_piece_value`). -/
def bishop_table : List Int :=
  [0, 0, 0, 0, 0, 0, 0, 0, 0, 0, 0, 0, 0, 0, 0, 0, 0, 0, 0, 0, 0, 0, 0, 0, 0, 10, 0, 0, 0, 0,
   10, 0, 5, 0, 10, 0, 0, 10, 0, 5, 0, 10, 0, 10, 10, 0, 10, 0, 0, 10, 0, 10, 10, 0, 10, 0, 0,
   0, -10, 0, 0, -10, 0, 0]

/-- Rook piece-square table (src/main.rs `get_piece_value`). -/
def rook_table : List Int :=
  [10, 10, 10, 10, 10, 10, 10, 10, 10, 10, 10, 10, 10, 10, 10, 10, 0, 0, 0, 0, 0, 0, 0, 0, 0,
   0, 0, 0, 0, 0, 0, 0, 0, 0, 0, 0, 0, 0, 0, 0, 0, 0, 0, 0, 0, 0, 0, 0, 0, 0, 0, 10, 10, 0, 0,
   0, 0, 0, 0, 10, 10, 5, 0, 0]

/-- Queen piece-square table (src/main.rs `get_piece_value`). -/
def queen_table : List Int :=
  [-20, -10, -10, -5, -5, -10, -10, -20, -10, 0, 0, 0, 0, 0, 0, -10, -10, 0, 5, 5, 5, 5, 0,
   -10, -5, 0, 5, 5, 5, 5, 0, -5, -5, 0, 5, 5, 5, 5, 0, -5, -10, 5, 5, 5, 5, 5, 0, -10, -10,
   0, 5, 0, 0, 0, 0, -10, -20, -10, -10, 0, 0, -10, -10, -20]

/-- King piece-square table (src/main.rs `get_piece_value`). -/
def king_table : List Int :=
  [0, 0, 0, 0, 0, 0, 0, 0, 0, 0, 0, 0, 0, 0, 0, 0, 0, 0, 0, 0, 0, 0, 0, 0, 0, 0, 0, 0, 0, 0,
   0, 0, 0, 0, 0, 0, 0, 0, 0, 0, 0, 0, 0, 0, 0, 0, 0, 0, 0, 0, 0, -5, -5, -5, 0, 0, 0, 0, 10,
   -5, -5, -5, 10, 0]

/-- `get_piece_value` (src/main.rs): material value plus piece-square-table
bonus.  White looks the table up at `63 - index`, black at `index`.  A table
access out of range (only possible for `index > 63`, which Rust would panic
on) defaults to 0. -/
def get_piece_value (piece : Piece) (index : Nat) : Int :=
  let pos := if piece.get_color = Color.White then 63 - index else index
  let table :=
    match piece with
    | Piece.Pawn _ => pawn_table
    | Piece.Bishop _ => bishop_table
    | Piece.Knight _ => knight_table
    | Piece.Rook _ => rook_table
    | Piece.Queen _ => queen_table
    | Piece.King _ => king_table
  (piece.get_cp_val : Int) + table.getD pos 0

/-- The value contributed by the piece recorded at square `i`
(src/main.rs `position_eval` loop body, `get_piece_value(board[i].unwrap(), i)`).
Rust panics when the square is empty (piece-set/board desynchronization, an
InternalInvariant); the embedding contributes 0 there. -/
def piece_value_at (p : Position) (i : Nat) : Int :=
  match bgetN p.board i with
  | some piece => get_piece_value piece i
  | none => 0

/-- The material/piece-square accumulation of `position_eval` (src/main.rs):
white pieces are added, black pieces subtracted, into one accumulator. -/
def eval_material (p : Position) : Int :=
  let eval := p.piece_set.white.foldl (fun acc i => acc + piece_value_at p i) 0
  p.piece_set.black.foldl (fun acc i => acc - piece_value_at p i) eval

/-- `position_eval` (src/main.rs).  The Rust function reads the repetition
map out of the shared engine state; the embedding takes that map as the
argument `repetition_map`. -/
def position_eval (p : Position) (repetition_map : Nat → Option Nat) : Int :=
  if p.halfmove_clock ≥ 50 then 0
  else
    let hash := gen_hash p
    match repetition_map hash with
    | some count => if count ≥ 2 then 0 else eval_material p
    | none => eval_material p

/-- The blocker test of one sliding-ray loop of `is_piece_attacked`
(src/main.rs): a queen always hits, a bishop on a diagonal ray or a rook on
an orthogonal ray hits, an adjacent king (first step of the ray) hits. -/
def ray_hit (piece : Piece) (opp : Color) (diag : Bool) (offset dir_offset : Int) : Bool :=
  decide (piece = Piece.Queen opp)
  || (if diag then decide (piece = Piece.Bishop opp) else decide (piece = Piece.Rook opp))
  || (decide (piece = Piece.King opp) && decide (offset = dir_offset))

/-- One sliding-ray loop of `is_piece_attacked` (src/main.rs): step by
`dir_offset` from `index`, stop at the board edge (`stop`), and decide on the
first occupied square.  Each Rust loop runs at most 8 iterations; the `fuel`
argument (always called with 16) makes the recursion structural. -/
def ray_attacked (p : Position) (opp : Color) (index : Nat) (dir_offset : Int)
    (stop : Int → Bool) (diag : Bool) : Nat → Int → Bool
  | 0, _ => false
  | fuel + 1, offset =>
    if stop ((index : Int) + offset) then false
    else
      match bget p.board ((index : Int) + offset) with
      | some piece => ray_hit piece opp diag offset dir_offset
      | none => ray_attacked p opp index dir_offset stop diag fuel (offset + dir_offset)

/-- `is_piece_attacked` (src/main.rs): is the piece of color `piece_color`
on square `index` attacked in `p`?  Eight sliding rays in source order
(offsets -8, 8, 1, -1, 9, 7, -9, -7, with the source's edge guards and
guard order), then the eight knight jumps, then the two pawn diagonals.
En passant is not considered. -/
def is_piece_attacked (index : Nat) (piece_color : Color) (p : Position) : Bool :=
  let opp := piece_color.opposite
  ray_attacked p opp index (-8) (fun i => decide (i < 0)) false 16 (-8)
  || ray_attacked p opp index 8 (fun i => decide (i > 63)) false 16 8
  || ray_attacked p opp index 1
      (fun i => decide (rmod i 8 = 0) || decide (i > 63)) false 16 1
  || ray_attacked p opp index (-1)
      (fun i => decide (rmod i 8 = 7) || decide (i < 0)) false 16 (-1)
  || ray_attacked p opp index 9
      (fun i => decide (i > 63) || decide (rmod i 8 = 0)) true 16 9
  || ray_attacked p opp index 7
      (fun i => decide (i > 63) || decide (rmod i 8 = 7)) true 16 7
  || ray_attacked p opp index (-9)
      (fun i => decide (i < 0) || decide (rmod i 8 = 7)) true 16 (-9)
  || ray_attacked p opp index (-7)
      (fun i => decide (i < 0) || decide (rmod i 8 = 0)) true 16 (-7)
  || (decide (index / 8 ≤ 5)
      && ((decide (index % 8 ≤ 6)
            && decide (bget p.board ((index : Int) + 17) = some (Piece.Knight opp)))
        || (decide (1 ≤ index % 8)
            && decide (bget p.board ((index : Int) + 15) = some (Piece.Knight opp)))))
  || (decide (index % 8 ≤ 5)
      && ((decide (index / 8 ≤ 6)
            && decide (bget p.board ((index : Int) + 10) = some (Piece.Knight opp)))
        || (decide (1 ≤ index / 8)
            && decide (bget p.board ((index : Int) - 6) = some (Piece.Knight opp)))))
  || (decide (2 ≤ index / 8)
      && ((decide (index % 8 ≤ 6)
            && decide (bget p.board ((index : Int) - 15) = some (Piece.Knight opp)))
        || (decide (1 ≤ index % 8)
            && decide (bget p.board ((index : Int) - 17) = some (Piece.Knight opp)))))
  || (decide (2 ≤ index % 8)
      && ((decide (index / 8 ≤ 6)
            && decide (bget p.board ((index : Int) + 6) = some (Piece.Knight opp)))
        || (decide (1 ≤ index / 8)
            && decide (bget p.board ((index : Int) - 10) = some (Piece.Knight opp)))))
  || (decide (opp = Color.White) && decide (index > 7)
      && ((decide (index % 8 > 0)
            && decide (bget p.board ((index : Int) - 9) = some (Piece.Pawn opp)))
        || (decide (index % 8 < 7)
            && decide (bget p.board ((index : Int) - 7) = some (Piece.Pawn opp)))))
  || (decide (opp = Color.Black) && decide (index < 56)
      && ((decide (index % 8 > 0)
            && decide (bget p.board ((index : Int) + 7) = some (Piece.Pawn opp)))
        || (decide (index % 8 < 7)
            && decide (bget p.board ((index : Int) + 9) = some (Piece.Pawn opp)))))

/-- The side-to-move's cached king square, as selected at the tail of
`execute_halfmove` (src/main.rs lines 949-961). -/
def own_king_sq (p : Position) : Nat :=
  if p.move_next = Color.White then p.piece_set.white_king else p.piece_set.black_king

/-- The side-to-move's castling rights, as selected at the tail of
`execute_halfmove` (src/main.rs lines 949-961). -/
def own_rights (p : Position) : ColorCastlingRights :=
  if p.move_next = Color.White then p.castling_rights.white else p.castling_rights.black

/-- The tail of `execute_halfmove` (src/main.rs lines 949-971): after the
side to move has been flipped, when the new side to move still has BOTH
castling rights and its king is attacked, both of its rights are cleared. -/
def clear_rights_if_checked (p : Position) : Position :=
  if (own_rights p).kingside && (own_rights p).queenside
      && is_piece_attacked (own_king_sq p) p.move_next p then
    if p.move_next = Color.White then
      { p with castling_rights := { p.castling_rights with white := ⟨false, false⟩ } }
    else
      { p with castling_rights := { p.castling_rights with black := ⟨false, false⟩ } }
  else p

/-- `execute_halfmove` (src/main.rs lines 802-948) without its early null-move
return and without its final in-check rights clearing (`clear_rights_if_checked`).
Returns `none` exactly on the paths where Rust panics: `board[from].unwrap()`
on an empty square, and `en_passant_target.unwrap()` with no target. -/
def exec_core (p : Position) (to_exec : HalfMove) : Option Position :=
  match bget p.board to_exec.from_ with
  | none => none
  | some moved =>
    let p := { p with halfmove_clock := p.halfmove_clock + 1 }
    let color := moved.get_color
    let piece : Piece :=
      match to_exec.flag with
      | some HalfmoveFlag.KnightPromotion => Piece.Knight color
      | some HalfmoveFlag.BishopPromotion => Piece.Bishop color
      | some HalfmoveFlag.RookPromotion => Piece.Rook color
      | some HalfmoveFlag.QueenPromotion => Piece.Queen color
      | _ => moved
    let p :=
      if to_exec.flag ≠ some HalfmoveFlag.Castle then
        let p :=
          if bget p.board to_exec.to_ ≠ none
              ∨ bget p.board to_exec.from_ = some (Piece.Pawn p.move_next) then
            { p with halfmove_clock := 0 }
          else p
        let p := { p with board := p.board.set to_exec.to_ (some piece),
                          piece_set := p.piece_set.add_index_or_color_swap to_exec.to_ color }
        if piece = Piece.King Color.White then
          { p with castling_rights := { p.castling_rights with white := ⟨false, false⟩ },
                   piece_set := { p.piece_set with white_king := to_exec.to_ } }
        else if piece = Piece.King Color.Black then
          { p with castling_rights := { p.castling_rights with black := ⟨false, false⟩ },
                   piece_set := { p.piece_set with black_king := to_exec.to_ } }
        else if piece = Piece.Rook Color.White then
          if to_exec.from_ = 0 then
            { p with castling_rights :=
                { p.castling_rights with
                    white := { p.castling_rights.white with queenside := false } } }
          else if to_exec.from_ = 7 then
            { p with castling_rights :=
                { p.castling_rights with
                    white := { p.castling_rights.white with kingside := false } } }
          else p
        else if piece = Piece.Rook Color.Black then
          if to_exec.from_ = 56 then
            { p with castling_rights :=
                { p.castling_rights with
                    black := { p.castling_rights.black with queenside := false } } }
          else if to_exec.from_ = 63 then
            { p with castling_rights :=
                { p.castling_rights with
                    black := { p.castling_rights.black with kingside := false } } }
          else p
        else p
      else
        -- Castle: `to` carries the rook square.
        let p := { p with board := p.board.set to_exec.to_ none,
                          piece_set := p.piece_set.remove_index to_exec.to_ color }
        if color = Color.White then
          let p :=
            if to_exec.to_ = 0 then
              let p := { p with board := p.board.set 2 (some (Piece.King color)),
                                piece_set :=
                                  { p.piece_set.add_index 2 color with white_king := 2 } }
              { p with board := p.board.set 3 (some (Piece.Rook color)),
                       piece_set := p.piece_set.add_index 3 color }
            else
              -- to_exec.to = 7
              let p := { p with board := p.board.set 6 (some (Piece.King color)),
                                piece_set :=
                                  { p.piece_set.add_index 6 color with white_king := 6 } }
              { p with board := p.board.set 5 (some (Piece.Rook color)),
                       piece_set := p.piece_set.add_index 5 color }
          { p with castling_rights := { p.castling_rights with white := ⟨false, false⟩ } }
        else
          let p :=
            if to_exec.to_ = 56 then
              let p := { p with board := p.board.set 58 (some (Piece.King color)),
                                piece_set :=
                                  { p.piece_set.add_index 58 color with black_king := 58 } }
              { p with board := p.board.set 59 (some (Piece.Rook color)),
                       piece_set := p.piece_set.add_index 59 color }
            else
              -- to_exec.to = 63
              let p := { p with board := p.board.set 62 (some (Piece.King color)),
                                piece_set :=
                                  { p.piece_set.add_index 62 color with black_king := 62 } }
              { p with board := p.board.set 61 (some (Piece.Rook color)),
                       piece_set := p.piece_set.add_index 61 color }
          { p with castling_rights := { p.castling_rights with black := ⟨false, false⟩ } }
    let p := { p with board := p.board.set to_exec.from_ none,
                      piece_set := p.piece_set.remove_index to_exec.from_ color }
    let step_ep : Option Position :=
      if to_exec.flag = some HalfmoveFlag.EnPassant then
        match p.en_passant_target with
        | none => none
        | some target0 =>
          let target := if target0 / 8 = 5 then target0 - 8 else target0 + 8
          some { p with board := p.board.set target none,
                        piece_set := p.piece_set.remove_index target color.opposite }
      else some p
    match step_ep with
    | none => none
    | some p =>
      let p :=
        if to_exec.flag = some HalfmoveFlag.DoublePawnMove then
          let middle_space : Nat :=
            if to_exec.from_ > to_exec.to_ then to_exec.from_ - 8 else to_exec.from_ + 8
          { p with en_passant_target := some middle_space }
        else { p with en_passant_target := none }
      let p :=
        if p.move_next = Color.Black then
          { p with fullmove_number := p.fullmove_number + 1, move_next := Color.White }
        else { p with move_next := Color.Black }
      some p

/-- `execute_halfmove` (src/main.rs): the null move (from = to = 0) returns
the position unchanged; otherwise the move is applied (`exec_core`) and the
in-check castling-rights clearing runs last.  `none` stands for the paths
where Rust panics. -/
def execute_halfmove (p : Position) (to_exec : HalfMove) : Option Position :=
  if to_exec.from_ = 0 ∧ to_exec.to_ = 0 then some p
  else (exec_core p to_exec).map clear_rights_if_checked

/-- `gen_halfmove` (src/main.rs): push the move to `index + offset` unless the
target holds a same-color piece; the returned flag tells a sliding caller
whether to continue past this square (true only when it was empty). -/
def gen_halfmove (offset : Int) (index : Nat) (p : Position) : List HalfMove × Bool :=
  match bget p.board ((index : Int) + offset) with
  | some piece =>
    if piece.get_color = p.move_next then ([], false)
    else ([⟨index, ((index : Int) + offset).toNat, none, false⟩], false)
  | none => ([⟨index, ((index : Int) + offset).toNat, none, false⟩], true)

/-- `gen_halfmove_with_check` (src/main.rs): bounds- and wrap-checked single
step, used for king moves. -/
def gen_halfmove_with_check (offset : Int) (index : Nat) (p : Position) : List HalfMove :=
  if (index : Int) + offset > 63 ∨ (index : Int) + offset < 0 then []
  else if (rmod offset 8 = 1 ∨ rmod offset 8 = -7) ∧ index % 8 = 7 then []
  else if (rmod offset 8 = 7 ∨ rmod offset 8 = -1) ∧ index % 8 = 0 then []
  else (gen_halfmove offset index p).1

/-- The common loop shape of the eight sliding generators `gen_upwards`,
`gen_downwards`, ... (src/main.rs): step by `dir_offset`, stop at the edge
guard, stop after `gen_halfmove` reports a blocker.  Each Rust loop runs at
most 8 iterations; `fuel` (always 16) makes the recursion structural. -/
def gen_slide_loop (p : Position) (index : Nat) (dir_offset : Int)
    (stop : Int → Bool) : Nat → Int → List HalfMove
  | 0, _ => []
  | fuel + 1, offset =>
    if stop ((index : Int) + offset) then []
    else
      let r := gen_halfmove offset index p
      if r.2 then r.1 ++ gen_slide_loop p index dir_offset stop fuel (offset + dir_offset)
      else r.1

/-- `gen_upwards` (src/main.rs). -/
def gen_upwards (index : Nat) (p : Position) : List HalfMove :=
  gen_slide_loop p index 8 (fun i => decide (i > 63)) 16 8

/-- `gen_downwards` (src/main.rs). -/
def gen_downwards (index : Nat) (p : Position) : List HalfMove :=
  gen_slide_loop p index (-8) (fun i => decide (i < 0)) 16 (-8)

/-- `gen_right` (src/main.rs). -/
def gen_right (index : Nat) (p : Position) : List HalfMove :=
  gen_slide_loop p index 1 (fun i => decide (rmod i 8 = 0) || decide (i > 63)) 16 1

/-- `gen_left` (src/main.rs). -/
def gen_left (index : Nat) (p : Position) : List HalfMove :=
  gen_slide_loop p index (-1) (fun i => decide (rmod i 8 = 7) || decide (i < 0)) 16 (-1)

/-- `gen_up_right` (src/main.rs). -/
def gen_up_right (index : Nat) (p : Position) : List HalfMove :=
  gen_slide_loop p index 9 (fun i => decide (i > 63) || decide (rmod i 8 = 0)) 16 9

/-- `gen_up_left` (src/main.rs). -/
def gen_up_left (index : Nat) (p : Position) : List HalfMove :=
  gen_slide_loop p index 7 (fun i => decide (i > 63) || decide (rmod i 8 = 7)) 16 7

/-- `gen_down_right` (src/main.rs). -/
def gen_down_right (index : Nat) (p : Position) : List HalfMove :=
  gen_slide_loop p index (-7) (fun i => decide (i < 0) || decide (rmod i 8 = 0)) 16 (-7)

/-- `gen_down_left` (src/main.rs). -/
def gen_down_left (index : Nat) (p : Position) : List HalfMove :=
  gen_slide_loop p index (-9) (fun i => decide (i < 0) || decide (rmod i 8 = 7)) 16 (-9)

/-- `gen_bishop_moves` (src/main.rs), in source call order. -/
def gen_bishop_moves (index : Nat) (p : Position) : List HalfMove :=
  gen_down_left index p ++ gen_down_right index p ++ gen_up_left index p ++ gen_up_right index p

/-- `gen_rook_moves` (src/main.rs), in source call order. -/
def gen_rook_moves (index : Nat) (p : Position) : List HalfMove :=
  gen_downwards index p ++ gen_right index p ++ gen_upwards index p ++ gen_left index p

/-- `gen_queen_moves` (src/main.rs), in source call order. -/
def gen_queen_moves (index : Nat) (p : Position) : List HalfMove :=
  gen_down_left index p ++ gen_down_right index p ++ gen_up_left index p ++ gen_up_right index p
    ++ gen_downwards index p ++ gen_right index p ++ gen_upwards index p ++ gen_left index p

/-- `gen_normal_king_moves` (src/main.rs), in source call order. -/
def gen_normal_king_moves (index : Nat) (p : Position) : List HalfMove :=
  gen_halfmove_with_check 7 index p ++ gen_halfmove_with_check 8 index p
    ++ gen_halfmove_with_check 9 index p ++ gen_halfmove_with_check 1 index p
    ++ gen_halfmove_with_check (-7) index p ++ gen_halfmove_with_check (-8) index p
    ++ gen_halfmove_with_check (-9) index p ++ gen_halfmove_with_check (-1) index p

/-- `gen_knight_moves` (src/main.rs): the 8 L-jumps with the source's
file/rank bounds checks, in source order. -/
def gen_knight_moves (index : Nat) (p : Position) : List HalfMove :=
  (if index / 8 ≤ 5 then
    (if index % 8 ≤ 6 then (gen_halfmove 17 index p).1 else [])
      ++ (if 1 ≤ index % 8 then (gen_halfmove 15 index p).1 else [])
  else [])
  ++ (if index % 8 ≤ 5 then
    (if index / 8 ≤ 6 then (gen_halfmove 10 index p).1 else [])
      ++ (if 1 ≤ index / 8 then (gen_halfmove (-6) index p).1 else [])
  else [])
  ++ (if 2 ≤ index / 8 then
    (if index % 8 ≤ 6 then (gen_halfmove (-15) index p).1 else [])
      ++ (if 1 ≤ index % 8 then (gen_halfmove (-17) index p).1 else [])
  else [])
  ++ (if 2 ≤ index % 8 then
    (if index / 8 ≤ 6 then (gen_halfmove 6 index p).1 else [])
      ++ (if 1 ≤ index / 8 then (gen_halfmove (-10) index p).1 else [])
  else [])

/-- The four-promotion expansion of a pawn arrival at `target`
(src/main.rs, the repeated push blocks in the pawn generators):
knight, bishop, rook, queen, in source order. -/
def promo_moves (index target : Nat) : List HalfMove :=
  [⟨index, target, some HalfmoveFlag.KnightPromotion, false⟩,
   ⟨index, target, some HalfmoveFlag.BishopPromotion, false⟩,
   ⟨index, target, some HalfmoveFlag.RookPromotion, false⟩,
   ⟨index, target, some HalfmoveFlag.QueenPromotion, false⟩]

/-- `gen_white_pawn_moves` (src/main.rs).  The `board[index].unwrap()` for the
moving pawn's color is total here via a `White` default (the function is only
ever called on a square holding a white pawn; on an empty square Rust
panics).  A pawn on rank 8 would index the board out of range in Rust; the
embedding reads `none` there. -/
def gen_white_pawn_moves (index : Nat) (p : Position) : List HalfMove :=
  let board := p.board
  let color :=
    match bgetN board index with
    | some piece => piece.get_color
    | none => Color.White
  let straight : List HalfMove :=
    if bgetN board (index + 8) = none then
      if index / 8 ≠ 6 then
        [⟨index, index + 8, none, false⟩]
          ++ (if index / 8 = 1 ∧ bgetN board (index + 16) = none then
                [⟨index, index + 16, some HalfmoveFlag.DoublePawnMove, false⟩]
              else [])
      else promo_moves index (index + 8)
    else []
  let should_promote := index / 8 = 6
  let left : List HalfMove :=
    if index % 8 ≠ 0 then
      match bgetN board (index + 7) with
      | some target =>
        if target.get_color ≠ color then
          if should_promote then promo_moves index (index + 7)
          else [⟨index, index + 7, none, false⟩]
        else []
      | none =>
        match p.en_passant_target with
        | some target =>
          if index + 7 = target then [⟨index, index + 7, some HalfmoveFlag.EnPassant, false⟩]
          else []
        | none => []
    else []
  let right : List HalfMove :=
    if index % 8 ≠ 7 then
      match bgetN board (index + 9) with
      | some target =>
        if target.get_color ≠ color then
          if should_promote then promo_moves index (index + 9)
          else [⟨index, index + 9, none, false⟩]
        else []
      | none =>
        match p.en_passant_target with
        | some target =>
          if index + 9 = target then [⟨index, index + 9, some HalfmoveFlag.EnPassant, false⟩]
          else []
        | none => []
    else []
  straight ++ left ++ right

/-- `gen_black_pawn_moves` (src/main.rs).  Same totalization notes as the
white version; the `u8` subtractions (which would underflow-panic in Rust
for a pawn on rank 1) are truncated `Nat` subtractions. -/
def gen_black_pawn_moves (index : Nat) (p : Position) : List HalfMove :=
  let board := p.board
  let color :=
    match bgetN board index with
    | some piece => piece.get_color
    | none => Color.Black
  let straight : List HalfMove :=
    if bgetN board (index - 8) = none then
      if index / 8 ≠ 1 then
        [⟨index, index - 8, none, false⟩]
          ++ (if index / 8 = 6 ∧ bgetN board (index - 16) = none then
                [⟨index, index - 16, some HalfmoveFlag.DoublePawnMove, false⟩]
              else [])
      else promo_moves index (index - 8)
    else []
  let should_promote := index / 8 = 1
  let left : List HalfMove :=
    if index % 8 ≠ 0 then
      match bgetN board (index - 9) with
      | some target =>
        if target.get_color ≠ color then
          if should_promote then promo_moves index (index - 9)
          else [⟨index, index - 9, none, false⟩]
        else []
      | none =>
        match p.en_passant_target with
        | some target =>
          if index - 9 = target then [⟨index, index - 9, some HalfmoveFlag.EnPassant, false⟩]
          else []
        | none => []
    else []
  let right : List HalfMove :=
    if index % 8 ≠ 7 then
      match bgetN board (index - 7) with
      | some target =>
        if target.get_color ≠ color then
          if should_promote then promo_moves index (index - 7)
          else [⟨index, index - 7, none, false⟩]
        else []
      | none =>
        match p.en_passant_target with
        | some target =>
          if index - 7 = target then [⟨index, index - 7, some HalfmoveFlag.EnPassant, false⟩]
          else []
        | none => []
    else []
  straight ++ left ++ right

/-- `gen_piece_pseudolegal_moves` (src/main.rs): dispatch on the piece at
`piece_index` (Rust panics when the square is empty; the embedding yields no
moves), then run the source's capture-marking pass, which sets `is_capture`
on exactly the moves whose destination square is EMPTY and whose flag is not
`EnPassant`. -/
def gen_piece_pseudolegal_moves (piece_index : Nat) (p : Position) : List HalfMove :=
  let moves :=
    match bgetN p.board piece_index with
    | some (Piece.Pawn Color.White) => gen_white_pawn_moves piece_index p
    | some (Piece.Pawn Color.Black) => gen_black_pawn_moves piece_index p
    | some (Piece.Knight _) => gen_knight_moves piece_index p
    | some (Piece.Rook _) => gen_rook_moves piece_index p
    | some (Piece.Bishop _) => gen_bishop_moves piece_index p
    | some (Piece.Queen _) => gen_queen_moves piece_index p
    | some (Piece.King _) => gen_normal_king_moves piece_index p
    | none => []
  moves.map (fun m =>
    if bgetN p.board m.to_ = none ∧ m.flag ≠ some HalfmoveFlag.EnPassant then
      { m with is_capture := true }
    else m)

/-- `gen_pseudolegal_moves` (src/main.rs): per-piece pseudo-legal moves for
the side to move, then the castling moves (black kingside/queenside, or for
white queenside first, then kingside, as in the source). -/
def gen_pseudolegal_moves (p : Position) : List HalfMove :=
  let piece_set := if p.move_next = Color.Black then p.piece_set.black else p.piece_set.white
  let moves := piece_set.foldl (fun acc i => acc ++ gen_piece_pseudolegal_moves i p) []
  if p.move_next = Color.Black then
    let moves :=
      if p.castling_rights.black.kingside then
        if bgetN p.board 63 = some (Piece.Rook Color.Black)
            ∧ bgetN p.board 62 = none
            ∧ bgetN p.board 61 = none
            ∧ bgetN p.board 60 = some (Piece.King Color.Black)
            ∧ is_piece_attacked 61 Color.Black p = false
            ∧ is_piece_attacked 62 Color.Black p = false then
          moves ++ [⟨60, 63, some HalfmoveFlag.Castle, false⟩]
        else moves
      else moves
    if p.castling_rights.black.queenside then
      if bgetN p.board 56 = some (Piece.Rook Color.Black)
          ∧ bgetN p.board 57 = none
          ∧ bgetN p.board 58 = none
          ∧ bgetN p.board 59 = none
          ∧ bgetN p.board 60 = some (Piece.King Color.Black)
          ∧ is_piece_attacked 59 Color.Black p = false
          ∧ is_piece_attacked 58 Color.Black p = false then
        moves ++ [⟨60, 56, some HalfmoveFlag.Castle, false⟩]
      else moves
    else moves
  else
    let moves :=
      if p.castling_rights.white.queenside then
        if bgetN p.board 0 = some (Piece.Rook Color.White)
            ∧ bgetN p.board 1 = none
            ∧ bgetN p.board 2 = none
            ∧ bgetN p.board 3 = none
            ∧ bgetN p.board 4 = some (Piece.King Color.White)
            ∧ is_piece_attacked 3 Color.White p = false
            ∧ is_piece_attacked 2 Color.White p = false then
          moves ++ [⟨4, 0, some HalfmoveFlag.Castle, false⟩]
        else moves
      else moves
    if p.castling_rights.white.kingside then
      if bgetN p.board 7 = some (Piece.Rook Color.White)
          ∧ bgetN p.board 6 = none
          ∧ bgetN p.board 5 = none
          ∧ bgetN p.board 4 = some (Piece.King Color.White)
          ∧ is_piece_attacked 5 Color.White p = false
          ∧ is_piece_attacked 6 Color.White p = false then
        moves ++ [⟨4, 7, some HalfmoveFlag.Castle, false⟩]
      else moves
    else moves

/-- `gen_possible` (src/main.rs lines 1875-1881): the move generator used by
the search tree.  It returns `gen_pseudolegal_moves` verbatim — there is no
clone-apply-reject legality filtering step anywhere in it. -/
def gen_possible (p : Position) : List HalfMove :=
  gen_pseudolegal_moves p

/-- Build a length-64 board from a placement association list
(helper for the concrete positions below; not part of the source). -/
def board_of (l : List (Nat × Piece)) : List (Option Piece) :=
  l.foldl (fun b x => b.set x.1 (some x.2)) (List.replicate 64 none)

/-- White to move, no castling rights; white king e1 (4) is in check from
the black rook e8 (60); white also has a pawn on a2 (8); black king a8 (56). -/
def p1 : Position :=
  { board := board_of [(4, Piece.King Color.White), (8, Piece.Pawn Color.White),
                       (56, Piece.King Color.Black), (60, Piece.Rook Color.Black)],
    piece_set := { all := [4, 8, 56, 60], white := [4, 8], black := [56, 60],
                   white_king := 4, black_king := 56 },
    move_next := Color.White,
    castling_rights := { black := ⟨false, false⟩, white := ⟨false, false⟩ },
    en_passant_target := none,
    halfmove_clock := 0,
    fullmove_number := 1 }

/-- The pawn push a2a3 exactly as the generator emits it for `p1`
(the generator's inverted marking pass sets its capture bit). -/
def mv1 : HalfMove := ⟨8, 16, none, true⟩

/-- White to move; white knight b1 (1) with a black pawn on c3 (18) it can
capture; kings e1 (4) and a8 (56). -/
def p2 : Position :=
  { board := board_of [(1, Piece.Knight Color.White), (4, Piece.King Color.White),
                       (18, Piece.Pawn Color.Black), (56, Piece.King Color.Black)],
    piece_set := { all := [1, 4, 18, 56], white := [1, 4], black := [18, 56],
                   white_king := 4, black_king := 56 },
    move_next := Color.White,
    castling_rights := { black := ⟨false, false⟩, white := ⟨false, false⟩ },
    en_passant_target := none,
    halfmove_clock := 0,
    fullmove_number := 1 }

/-- Black to move; white king e1 (4) and rook h1 (7) with only the white
KINGSIDE castling right set; black rook d8 (59) about to move to e8 and give
check; black king a8 (56). -/
def p3 : Position :=
  { board := board_of [(4, Piece.King Color.White), (7, Piece.Rook Color.White),
                       (56, Piece.King Color.Black), (59, Piece.Rook Color.Black)],
    piece_set := { all := [4, 7, 56, 59], white := [4, 7], black := [56, 59],
                   white_king := 4, black_king := 56 },
    move_next := Color.Black,
    castling_rights := { black := ⟨false, false⟩, white := ⟨true, false⟩ },
    en_passant_target := none,
    halfmove_clock := 0,
    fullmove_number := 1 }

/-- The black rook move d8e8, giving check to the white king. -/
def mv3 : HalfMove := ⟨59, 60, none, false⟩

/-- The position after `mv3` is executed on `p3`. -/
def q3 : Position := (execute_halfmove p3 mv3).getD p3

/-- The standard chess starting position (used only to sanity-check the
embedded generator: it must produce the 20 half-moves of perft(1)). -/
def startpos : Position :=
  { board := board_of
      [(0, Piece.Rook Color.White), (1, Piece.Knight Color.White),
       (2, Piece.Bishop Color.White), (3, Piece.Queen Color.White),
       (4, Piece.King Color.White), (5, Piece.Bishop Color.White),
       (6, Piece.Knight Color.White), (7, Piece.Rook Color.White),
       (8, Piece.Pawn Color.White), (9, Piece.Pawn Color.White),
       (10, Piece.Pawn Color.White), (11, Piece.Pawn Color.White),
       (12, Piece.Pawn Color.White), (13, Piece.Pawn Color.White),
       (14, Piece.Pawn Color.White), (15, Piece.Pawn Color.White),
       (48, Piece.Pawn Color.Black), (49, Piece.Pawn Color.Black),
       (50, Piece.Pawn Color.Black), (51, Piece.Pawn Color.Black),
       (52, Piece.Pawn Color.Black), (53, Piece.Pawn Color.Black),
       (54, Piece.Pawn Color.Black), (55, Piece.Pawn Color.Black),
       (56, Piece.Rook Color.Black), (57, Piece.Knight Color.Black),
       (58, Piece.Bishop Color.Black), (59, Piece.Queen Color.Black),
       (60, Piece.King Color.Black), (61, Piece.Bishop Color.Black),
       (62, Piece.Knight Color.Black), (63, Piece.Rook Color.Black)],
    piece_set := { all := List.range 64 |>.filter (fun i => i < 16 ∨ 48 ≤ i),
                   white := List.range 16,
                   black := (List.range 16).map (fun i => i + 48),
                   white_king := 4, black_king := 60 },
    move_next := Color.White,
    castling_rights := { black := ⟨true, true⟩, white := ⟨true, true⟩ },
    en_passant_target := none,
    halfmove_clock := 0,
    fullmove_number := 1 }

/-! ## Theorems -/

/-- Folding `acc + f i` over a list adds the mapped sum (helper). -/
theorem foldl_add_eq_sum (f : Nat → Int) (l : List Nat) (a : Int) :
    l.foldl (fun acc i => acc + f i) a = a + (l.map f).sum := by
  induction l generalizing a with
  | nil => simp
  | cons x xs ih => simp [ih, add_assoc]

/-- Folding `acc - f i` over a list subtracts the mapped sum (helper). -/
theorem foldl_sub_eq_sum (f : Nat → Int) (l : List Nat) (a : Int) :
    l.foldl (fun acc i => acc - f i) a = a - (l.map f).sum := by
  induction l generalizing a with
  | nil => simp
  | cons x xs ih => simp [ih, sub_sub]

/-- The accumulator of `position_eval` equals the white piece-value sum minus
the black piece-value sum (helper). -/
theorem eval_material_eq_sum (p : Position) :
    eval_material p
      = (p.piece_set.white.map (fun i => piece_value_at p i)).sum
        - (p.piece_set.black.map (fun i => piece_value_at p i)).sum := by
  unfold eval_material
  rw [foldl_sub_eq_sum, foldl_add_eq_sum]
  ring

/-- After the in-check clearing step at the tail of `execute_halfmove`, the
side to move never holds BOTH castling rights while its king is attacked:
when both were set and the king is attacked they are cleared, and otherwise
at most one was set to begin with (helper). -/
theorem clear_rights_if_checked_not_both (r : Position)
    (h : is_piece_attacked (own_king_sq (clear_rights_if_checked r))
          (clear_rights_if_checked r).move_next (clear_rights_if_checked r) = true) :
    ¬((own_rights (clear_rights_if_checked r)).kingside = true
        ∧ (own_rights (clear_rights_if_checked r)).queenside = true) := by
  unfold clear_rights_if_checked at h ⊢
  by_cases hg : ((own_rights r).kingside && (own_rights r).queenside
      && is_piece_attacked (own_king_sq r) r.move_next r) = true
  · rw [if_pos hg] at h ⊢
    by_cases hmn : r.move_next = Color.White
    · rw [if_pos hmn] at h ⊢
      simp [own_rights, hmn]
    · rw [if_neg hmn] at h ⊢
      simp [own_rights, hmn]
  · rw [if_neg hg] at h ⊢
    intro hks
    exact hg (by simp [hks.1, hks.2, h])

/-- C1, counterexample: in position `p1` (white king on e1 in check from the
black rook on e8) the generator `gen_possible` returns the pawn push a2a3
(`mv1`), and after applying it with `execute_halfmove` the mover's (white's)
king is still attacked — so `gen_possible` does NOT reject candidates that
leave the mover's king attacked. -/
theorem c1_counterexample :
    p1.move_next = Color.White
      ∧ mv1 ∈ gen_possible p1
      ∧ (execute_halfmove p1 mv1).map
          (fun q => is_piece_attacked q.piece_set.white_king Color.White q) = some true := by
  refine ⟨rfl, by decide, by decide⟩

/-- C1, amended: `gen_possible` returns the pseudo-legal move list verbatim;
it contains no clone-apply-reject legality filter, so a returned half-move
may leave the mover's king attacked (witnessed by `c1_counterexample`). -/
theorem c1_amended (p : Position) : gen_possible p = gen_pseudolegal_moves p := rfl

/-- C2, evaluation at the failing input: for the white knight on b1 in `p2`,
the generator marks the quiet moves b1a3 and b1d2 (empty destinations) with
`is_capture = true` and leaves the genuine capture b1xc3 (black pawn on c3,
square 18) with `is_capture = false` — the exact inversion of the claimed
condition. -/
theorem c2_failing_input_eval :
    gen_piece_pseudolegal_moves 1 p2
        = [⟨1, 18, none, false⟩, ⟨1, 16, none, true⟩, ⟨1, 11, none, true⟩]
      ∧ bgetN p2.board 18 = some (Piece.Pawn Color.Black)
      ∧ bgetN p2.board 16 = none
      ∧ bgetN p2.board 11 = none := by
  refine ⟨by decide, rfl, rfl, rfl⟩

/-- C3, counterexample: after the black rook move d8e8 (`mv3`) on `p3`, the
side to move (White) has its king attacked, yet its kingside castling right
is still set — the clearing at the tail of `execute_halfmove` only fires
when BOTH rights were set, and white had only the kingside right. -/
theorem c3_counterexample :
    (execute_halfmove p3 mv3).map
        (fun q => (q.move_next, is_piece_attacked (own_king_sq q) q.move_next q,
                   (own_rights q).kingside, (own_rights q).queenside))
      = some (Color.White, true, true, false) := by decide

/-- C3, amended: for every non-null half-move that `execute_halfmove`
completes, if the new side to move's king is attacked in the resulting
position, then that side does not retain BOTH castling rights: when both
were set they are cleared, while a single set right is retained (the code
clears only under the conjunction `kingside && queenside`). -/
theorem c3_amended (p : Position) (m : HalfMove) (q : Position)
    (hnull : ¬(m.from_ = 0 ∧ m.to_ = 0))
    (hq : execute_halfmove p m = some q)
    (hatt : is_piece_attacked (own_king_sq q) q.move_next q = true) :
    ¬((own_rights q).kingside = true ∧ (own_rights q).queenside = true) := by
  unfold execute_halfmove at hq
  rw [if_neg hnull] at hq
  rcases Option.map_eq_some'.mp hq with ⟨r, _, hqr⟩
  subst hqr
  exact clear_rights_if_checked_not_both r hatt

/-- C3, witness for the amended theorem at the concrete input `p3`, `mv3`. -/
theorem c3_amended_witness :
    execute_halfmove p3 mv3 = some q3
      ∧ is_piece_attacked (own_king_sq q3) q3.move_next q3 = true
      ∧ ¬((own_rights q3).kingside = true ∧ (own_rights q3).queenside = true) :=
  ⟨by decide, by decide, c3_amended p3 mv3 q3 (by decide) (by decide) (by decide)⟩

/-- C4: the static evaluator `position_eval` returns 0 when the halfmove
clock has reached 50; returns 0 when the repetition map holds a count of at
least 2 for the position's fingerprint `gen_hash`; and otherwise returns the
signed material-plus-piece-square sum — white piece values added, black
piece values subtracted. -/
theorem c4_position_eval (p : Position) (rmap : Nat → Option Nat) :
    (50 ≤ p.halfmove_clock → position_eval p rmap = 0)
      ∧ (∀ c, rmap (gen_hash p) = some c → 2 ≤ c → position_eval p rmap = 0)
      ∧ (p.halfmove_clock < 50 → (∀ c, rmap (gen_hash p) = some c → c < 2) →
          position_eval p rmap
            = (p.piece_set.white.map (fun i => piece_value_at p i)).sum
              - (p.piece_set.black.map (fun i => piece_value_at p i)).sum) := by
  refine ⟨?_, ?_, ?_⟩
  · intro h
    simp [position_eval, h]
  · intro c hc h2
    unfold position_eval
    by_cases h50 : 50 ≤ p.halfmove_clock
    · rw [if_pos h50]
    · rw [if_neg h50]
      simp only [hc]
      rw [if_pos h2]
  · intro h50 hlt
    unfold position_eval
    rw [if_neg (not_le.mpr h50)]
    cases hc : rmap (gen_hash p) with
    | none =>
      simp only [hc]
      exact eval_material_eq_sum p
    | some c =>
      simp only [hc]
      rw [if_neg (not_le.mpr (hlt c hc))]
      exact eval_material_eq_sum p

/-- C4, witness: the three branches of `c4_position_eval` exercised at
concrete inputs — a position with halfmove clock 60, a repetition map whose
count is 2, and a fresh map with a clock below 50. -/
theorem c4_position_eval_witness :
    position_eval { p1 with halfmove_clock := 60 } (fun _ => none) = 0
      ∧ position_eval p1 (fun _ => some 2) = 0
      ∧ position_eval p1 (fun _ => none)
          = (p1.piece_set.white.map (fun i => piece_value_at p1 i)).sum
            - (p1.piece_set.black.map (fun i => piece_value_at p1 i)).sum :=
  ⟨(c4_position_eval { p1 with halfmove_clock := 60 } (fun _ => none)).1 (by decide),
   (c4_position_eval p1 (fun _ => some 2)).2.1 2 rfl (by decide),
   (c4_position_eval p1 (fun _ => none)).2.2 (by decide) (fun c h => Option.noConfusion h)⟩

end EndGame2
